import Mathlib

/-!
Verification development for the browser-session lifecycle and coordination
engine of the repository (FastAPI + Selenium scraping service).

The embedding models the module-level mutable state of
`app/api/v1/endpoints.py` (`active_drivers`, `driver_in_use`, `refresh_task`)
as an explicit `GlobalState` record, and the relevant operations
(`refresh_driver_periodically`, `close_driver`, `descargar_archivos_ariba`)
as pure functions from state and an oracle describing the outcomes of the
external Selenium calls to a result together with the successor state and an
event trace.  `app/scraping/ariba_scraper.py`'s `login_ariba` and
`descarga_db` are embedded the same way: every Selenium interaction is an
oracle input (it may succeed or raise), and the surrounding Python control
flow — the try/except/finally structure, the manual index `i`, the
`validador` loop flag that is reused to hold a button label (a string whose
Python truthiness drives the `while`) — is translated line by line.
-/

/-- Outcome of one external (Selenium or executor) step: either it returns
normally or it raises an exception carrying a message. -/
inductive StepRes
  | ok
  | exc (msg : String)
deriving DecidableEq

/-- Module-level mutable state of `endpoints.py`: the `active_drivers` dict
(modelled by the list of registered names), the `driver_in_use` flag, and the
global `refresh_task` (`none` = no task; `some d` = a task whose `done()`
returns `d`). -/
structure GlobalState where
  activeDrivers : List String
  driverInUse : Bool
  refreshTask : Option Bool
deriving DecidableEq

/- ------------------------------------------------------------------ -/
/- Keep-alive scheduler: one iteration of `refresh_driver_periodically` -/
/- ------------------------------------------------------------------ -/

/-- First keep-alive URL (`driver.get` target A in
`refresh_driver_periodically`). -/
def urlA : String := "https://s1.ariba.com/Sourcing/Main"

/-- Second keep-alive URL (`driver.get` target B in
`refresh_driver_periodically`). -/
def urlB : String := "https://s1.ariba.com/Sourcing/Main/aw?awh=r&awssk=XT7J.wXPZ1._CF9T&realm=latam&awrdt=1"

/-- Observable outcome of one iteration of the `while True` body of
`refresh_driver_periodically`: the sleeps performed (in seconds, in order),
the navigations attempted (URLs passed to `driver.get`), whether the loop
proceeds to another iteration, the error caught by the `except` handler (if
any), and the exception propagated to the caller (always `none` for this
body: the handler catches every `Exception`). -/
structure KAIter where
  sleeps : List Nat
  navigations : List String
  continues : Bool
  caughtError : Option String
  raised : Option String
deriving DecidableEq

/-- One iteration of the loop body of `refresh_driver_periodically`
(endpoints.py lines 145-171): sleep `interval`; if `driver_name` is not in
`active_drivers`, `continue`; if `driver_in_use`, `continue`; otherwise
navigate to `urlA`, sleep 2, navigate to `urlB`, sleep 2.  Any exception in
the body is caught, logged, followed by a 60-second sleep, and the loop
resumes.  `nav1`/`nav2` are the oracle outcomes of the two `driver.get`
calls. -/
def refresh_driver_iteration (interval : Nat) (st : GlobalState)
    (driver_name : String) (nav1 nav2 : StepRes) : KAIter :=
  if driver_name ∈ st.activeDrivers then
    if st.driverInUse then
      { sleeps := [interval], navigations := [], continues := true,
        caughtError := none, raised := none }
    else
      match nav1 with
      | .exc m =>
          { sleeps := [interval, 60], navigations := [urlA], continues := true,
            caughtError := some m, raised := none }
      | .ok =>
          match nav2 with
          | .exc m =>
              { sleeps := [interval, 2, 60], navigations := [urlA, urlB],
                continues := true, caughtError := some m, raised := none }
          | .ok =>
              { sleeps := [interval, 2, 2], navigations := [urlA, urlB],
                continues := true, caughtError := none, raised := none }
  else
    { sleeps := [interval], navigations := [], continues := true,
      caughtError := none, raised := none }

/- ------------------------------------------------------------------ -/
/- Download endpoint: `descargar_archivos_ariba`                       -/
/- ------------------------------------------------------------------ -/

/-- Outcome of `descarga_db` as observed by the endpoint through
`run_in_executor`: a normal return `(success, message)` or an exception. -/
inductive DlOutcome
  | ret (success : Bool) (msg : String)
  | exc (msg : String)
deriving DecidableEq

/-- Endpoint response: a success body or a raised `HTTPException`. -/
inductive EndpointResult
  | ok (msg : String) (driverUsed : String) (downloadPath : String)
  | httpError (code : Nat) (detail : String)
deriving DecidableEq

/-- Run of the endpoint: response, final global state, and the trace of
`set_driver_in_use` calls (their Boolean arguments, in order). -/
structure EndpointRun where
  result : EndpointResult
  finalState : GlobalState
  gateOps : List Bool
deriving DecidableEq

/-- Embedding of `descargar_archivos_ariba` (endpoints.py lines 253-317).
If `"driver"` is not in `active_drivers`, an HTTP 400 is raised before the
gate is touched.  Otherwise `set_driver_in_use(True)` runs, `descarga_db`
executes with outcome `dl`, and the `finally` block runs
`set_driver_in_use(False)` on every exit path: a success return, the
HTTP 500 raised on a failure result, and the HTTP 500 raised by the outer
handler when the executor call itself raises. -/
def descargar_archivos_ariba (st : GlobalState) (pathArg : Option String)
    (defaultDir : String) (dl : DlOutcome) : EndpointRun :=
  if "driver" ∈ st.activeDrivers then
    let path := pathArg.getD defaultDir
    match dl with
    | .ret true msg =>
        { result := .ok msg "driver" path,
          finalState := { st with driverInUse := false },
          gateOps := [true, false] }
    | .ret false msg =>
        { result := .httpError 500 msg,
          finalState := { st with driverInUse := false },
          gateOps := [true, false] }
    | .exc m =>
        { result := .httpError 500 ("Error en descarga de archivos: " ++ m),
          finalState := { st with driverInUse := false },
          gateOps := [true, false] }
  else
    { result := .httpError 400
        "No hay un driver activo. Primero debes iniciar sesión con /login-ariba-driver",
      finalState := st, gateOps := [] }

/- ------------------------------------------------------------------ -/
/- Close endpoint: `close_driver`                                      -/
/- ------------------------------------------------------------------ -/

/-- Events observable during a `close_driver` run, in program order. -/
inductive CloseEvent
  | quitDriver (name : String)
  | removeRegistry (name : String)
  | cancelTask
  | awaitTaskExit
deriving DecidableEq

/-- Response of `close_driver`: its success body or a raised
`HTTPException`. -/
inductive CloseResult
  | ok (msg : String)
  | httpError (code : Nat) (detail : String)
deriving DecidableEq

/-- Run of `close_driver`: response, final global state, event trace. -/
structure CloseRun where
  result : CloseResult
  finalState : GlobalState
  events : List CloseEvent
deriving DecidableEq

/-- The cancellation block of `close_driver` (endpoints.py lines 241-247):
if `refresh_task` exists and is not done, cancel it, await it (swallowing
`CancelledError`), and set it to `None`. -/
def cancelRefreshTask (st : GlobalState) (name : String)
    (evs : List CloseEvent) : CloseRun :=
  match st.refreshTask with
  | some false =>
      { result := .ok ("Driver " ++ name ++ " cerrado y refresco detenido"),
        finalState := { st with refreshTask := none },
        events := evs ++ [.cancelTask, .awaitTaskExit] }
  | _ =>
      { result := .ok ("Driver " ++ name ++ " cerrado y refresco detenido"),
        finalState := st, events := evs }

/-- Embedding of `close_driver` (endpoints.py lines 229-248).  If the name
is registered, `quit()` runs first; should it raise (`quitRaises = some m`)
the handler raises HTTP 500 immediately — the `del` on the registry and the
whole task-cancellation block are never reached.  On a successful quit the
registry entry is deleted and then the refresh task is cancelled and
awaited. -/
def close_driver (st : GlobalState) (name : String)
    (quitRaises : Option String) : CloseRun :=
  if name ∈ st.activeDrivers then
    match quitRaises with
    | some m =>
        { result := .httpError 500 ("Error al cerrar el driver: " ++ m),
          finalState := st, events := [.quitDriver name] }
    | none =>
        cancelRefreshTask
          { st with activeDrivers := st.activeDrivers.filter (fun k => k != name) }
          name [.quitDriver name, .removeRegistry name]
  else
    cancelRefreshTask st name []

/- ------------------------------------------------------------------ -/
/- Theorems for claims C1-C4                                           -/
/- ------------------------------------------------------------------ -/

/-- Claim C1: for every call to `descargar_archivos_ariba` in which the
Usage Gate is set (which happens exactly when `"driver"` is registered, so
the 400 guard is passed), the gate is clear again when the call returns, on
every exit path — success, failure result, or exception raised mid-run.
The trace of `set_driver_in_use` calls is exactly `[true, false]` and the
final state has `driver_in_use = false`. -/
theorem descargar_gate_released (st : GlobalState) (pathArg : Option String)
    (defaultDir : String) (dl : DlOutcome)
    (h : "driver" ∈ st.activeDrivers) :
    (descargar_archivos_ariba st pathArg defaultDir dl).gateOps = [true, false] ∧
    (descargar_archivos_ariba st pathArg defaultDir dl).finalState.driverInUse = false := by
  cases dl with
  | ret s msg => cases s <;> simp [descargar_archivos_ariba, h]
  | exc m => simp [descargar_archivos_ariba, h]

/-- Witness for C1 at a concrete state, exercising the exception-mid-run
exit path: the gate is set and then cleared. -/
theorem descargar_gate_released_witness :
    (descargar_archivos_ariba ⟨["driver"], true, some false⟩ none "C:" (.exc "boom")).gateOps
        = [true, false] ∧
    (descargar_archivos_ariba ⟨["driver"], true, some false⟩ none "C:" (.exc "boom")).finalState.driverInUse
        = false :=
  descargar_gate_released ⟨["driver"], true, some false⟩ none "C:" (.exc "boom") (by decide)

/-- Claim C2: in every iteration of the keep-alive loop, if at the
post-sleep check the name is absent from `active_drivers` or the gate is
busy, the iteration performs no navigation, catches no error, propagates no
exception, and the loop continues. -/
theorem keepalive_skip_no_navigation (interval : Nat) (st : GlobalState)
    (driver_name : String) (nav1 nav2 : StepRes)
    (h : driver_name ∉ st.activeDrivers ∨ st.driverInUse = true) :
    (refresh_driver_iteration interval st driver_name nav1 nav2).navigations = [] ∧
    (refresh_driver_iteration interval st driver_name nav1 nav2).continues = true ∧
    (refresh_driver_iteration interval st driver_name nav1 nav2).caughtError = none ∧
    (refresh_driver_iteration interval st driver_name nav1 nav2).raised = none := by
  rcases h with h | h
  · by_cases hm : driver_name ∈ st.activeDrivers
    · exact absurd hm h
    · simp [refresh_driver_iteration, hm]
  · by_cases hm : driver_name ∈ st.activeDrivers <;>
      simp [refresh_driver_iteration, hm, h]

/-- Witness for C2: a tick while the gate is held performs no navigation and
the loop continues. -/
theorem keepalive_skip_no_navigation_witness :
    (refresh_driver_iteration 90 ⟨["driver"], true, some false⟩ "driver" .ok .ok).navigations = [] ∧
    (refresh_driver_iteration 90 ⟨["driver"], true, some false⟩ "driver" .ok .ok).continues = true ∧
    (refresh_driver_iteration 90 ⟨["driver"], true, some false⟩ "driver" .ok .ok).caughtError = none ∧
    (refresh_driver_iteration 90 ⟨["driver"], true, some false⟩ "driver" .ok .ok).raised = none :=
  keepalive_skip_no_navigation 90 ⟨["driver"], true, some false⟩ "driver" .ok .ok (Or.inr rfl)

/-- Claim C8: the keep-alive body never raises to its caller and always
continues the loop (it can only stop through external cancellation, which
is outside the body); and whenever a navigation step errors, the error is
caught and the fallback 60-second sleep is performed before resuming. -/
theorem keepalive_error_caught_and_resumes (interval : Nat) (st : GlobalState)
    (driver_name : String) (nav1 nav2 : StepRes) :
    (refresh_driver_iteration interval st driver_name nav1 nav2).raised = none ∧
    (refresh_driver_iteration interval st driver_name nav1 nav2).continues = true ∧
    (∀ m : String, driver_name ∈ st.activeDrivers → st.driverInUse = false →
      (nav1 = .exc m ∨ (nav1 = .ok ∧ nav2 = .exc m)) →
        (refresh_driver_iteration interval st driver_name nav1 nav2).caughtError = some m ∧
        60 ∈ (refresh_driver_iteration interval st driver_name nav1 nav2).sleeps) := by
  refine ⟨?_, ?_, ?_⟩
  · by_cases hm : driver_name ∈ st.activeDrivers <;>
      by_cases hu : st.driverInUse <;>
      cases nav1 <;> cases nav2 <;>
      simp [refresh_driver_iteration, hm, hu]
  · by_cases hm : driver_name ∈ st.activeDrivers <;>
      by_cases hu : st.driverInUse <;>
      cases nav1 <;> cases nav2 <;>
      simp [refresh_driver_iteration, hm, hu]
  · intro m hm hu herr
    rcases herr with h1 | ⟨h1, h2⟩
    · subst h1
      cases nav2 <;> simp [refresh_driver_iteration, hm, hu]
    · subst h1; subst h2
      simp [refresh_driver_iteration, hm, hu]

/-- Witness for C8 at a concrete state where the first navigation raises:
the error is caught, the 60-second fallback sleep happens, nothing is
raised, and the loop continues. -/
theorem keepalive_error_caught_and_resumes_witness :
    (refresh_driver_iteration 90 ⟨["driver"], false, some false⟩ "driver" (.exc "stale") .ok).caughtError
        = some "stale" ∧
    60 ∈ (refresh_driver_iteration 90 ⟨["driver"], false, some false⟩ "driver" (.exc "stale") .ok).sleeps ∧
    (refresh_driver_iteration 90 ⟨["driver"], false, some false⟩ "driver" (.exc "stale") .ok).raised = none :=
  let t := keepalive_error_caught_and_resumes 90 ⟨["driver"], false, some false⟩ "driver" (.exc "stale") .ok
  ⟨(t.2.2 "stale" (by decide) rfl (Or.inl rfl)).1,
   (t.2.2 "stale" (by decide) rfl (Or.inl rfl)).2, t.1⟩

/-- Claim C3 counterexample: on a registered name with a live keep-alive
task, `close_driver` quits the driver before cancelling and awaiting the
task — the task's exit does NOT precede the teardown.  Both events occur in
the trace, and the index of `awaitTaskExit` is not smaller than the index of
`quitDriver`. -/
theorem close_driver_quit_before_await :
    CloseEvent.awaitTaskExit ∈ (close_driver ⟨["driver"], false, some false⟩ "driver" none).events ∧
    CloseEvent.quitDriver "driver" ∈ (close_driver ⟨["driver"], false, some false⟩ "driver" none).events ∧
    ¬ ((close_driver ⟨["driver"], false, some false⟩ "driver" none).events.indexOf CloseEvent.awaitTaskExit
        < (close_driver ⟨["driver"], false, some false⟩ "driver" none).events.indexOf
            (CloseEvent.quitDriver "driver")) := by
  decide

/-- Claim C3 (amended): on a registered name with a live keep-alive task and
a teardown that does not raise, `close_driver` first quits the driver and
removes it from the registry, and only then cancels the task and awaits its
exit; the full event trace is
`[quitDriver, removeRegistry, cancelTask, awaitTaskExit]`, the task slot is
cleared, and the name is gone from the registry. -/
theorem close_driver_teardown_then_cancel (st : GlobalState) (name : String)
    (hreg : name ∈ st.activeDrivers) (htask : st.refreshTask = some false) :
    (close_driver st name none).events =
      [.quitDriver name, .removeRegistry name, .cancelTask, .awaitTaskExit] ∧
    name ∉ (close_driver st name none).finalState.activeDrivers ∧
    (close_driver st name none).finalState.refreshTask = none := by
  refine ⟨?_, ?_, ?_⟩ <;>
    simp [close_driver, cancelRefreshTask, hreg, htask, List.mem_filter]

/-- Witness for the amended C3 at a concrete state. -/
theorem close_driver_teardown_then_cancel_witness :
    (close_driver ⟨["driver"], false, some false⟩ "driver" none).events =
      [.quitDriver "driver", .removeRegistry "driver", .cancelTask, .awaitTaskExit] ∧
    "driver" ∉ (close_driver ⟨["driver"], false, some false⟩ "driver" none).finalState.activeDrivers ∧
    (close_driver ⟨["driver"], false, some false⟩ "driver" none).finalState.refreshTask = none :=
  close_driver_teardown_then_cancel ⟨["driver"], false, some false⟩ "driver" (by decide) rfl

/-- Claim C4 counterexample: when the driver teardown raises during
`close_driver` on a registered name with a live keep-alive task, the
registry still contains the name afterwards, the task is still live (never
cancelled nor awaited), and the call surfaces an HTTP 500 — the claimed
completion of registry/task cleanup fails. -/
theorem close_driver_quit_raise_aborts_cleanup :
    "driver" ∈ (close_driver ⟨["driver"], false, some false⟩ "driver" (some "boom")).finalState.activeDrivers ∧
    (close_driver ⟨["driver"], false, some false⟩ "driver" (some "boom")).finalState.refreshTask = some false ∧
    CloseEvent.cancelTask ∉ (close_driver ⟨["driver"], false, some false⟩ "driver" (some "boom")).events ∧
    CloseEvent.awaitTaskExit ∉ (close_driver ⟨["driver"], false, some false⟩ "driver" (some "boom")).events := by
  decide

/-- Claim C4 (amended): if the teardown raises, `close_driver` raises
HTTP 500 and aborts immediately: the global state is unchanged (the name
remains registered, the task untouched) and the only event is the failed
quit — no registry removal, no cancellation, no await. -/
theorem close_driver_quit_raise_keeps_registry (st : GlobalState)
    (name m : String) (hreg : name ∈ st.activeDrivers) :
    (close_driver st name (some m)).result =
      .httpError 500 ("Error al cerrar el driver: " ++ m) ∧
    (close_driver st name (some m)).finalState = st ∧
    (close_driver st name (some m)).events = [.quitDriver name] := by
  refine ⟨?_, ?_, ?_⟩ <;> simp [close_driver, hreg]

/-- Witness for the amended C4 at a concrete state. -/
theorem close_driver_quit_raise_keeps_registry_witness :
    (close_driver ⟨["driver"], false, some false⟩ "driver" (some "io")).result =
      .httpError 500 ("Error al cerrar el driver: " ++ "io") ∧
    (close_driver ⟨["driver"], false, some false⟩ "driver" (some "io")).finalState =
      ⟨["driver"], false, some false⟩ ∧
    (close_driver ⟨["driver"], false, some false⟩ "driver" (some "io")).events =
      [.quitDriver "driver"] :=
  close_driver_quit_raise_keeps_registry ⟨["driver"], false, some false⟩ "driver" "io" (by decide)

/- ------------------------------------------------------------------ -/
/- Login workflow: `login_ariba`                                       -/
/- ------------------------------------------------------------------ -/

/-- Outcome of the post-login marker read (`validador` in `login_ariba`):
either the element was found and its `outerText` read, or some step raised. -/
inductive MarkerRead
  | val (s : String)
  | exc (msg : String)
deriving DecidableEq

/-- Oracle for a `login_ariba` run: whether `setup_driver` succeeds (if it
raises, no driver exists yet), whether the navigation/credential/2FA steps
between driver creation and the marker read all succeed (they share one
failure handler), and the marker read itself. -/
structure LoginOracle where
  setupDriver : StepRes
  preMarkerSteps : StepRes
  markerRead : MarkerRead
deriving DecidableEq

/-- Observable result of a `login_ariba` run: whether a live driver was
returned (first component of the Python tuple is not `None`), the success
flag and message, whether a driver was ever created, how many times
`driver.quit()` was called, and the exception propagated to the caller
(always `none`: the function catches every `Exception`). -/
structure LoginRun where
  driver : Bool
  success : Bool
  message : String
  opened : Bool
  quitCount : Nat
  raised : Option String
deriving DecidableEq

/-- Embedding of `login_ariba` (ariba_scraper.py lines 53-111).  The
`except` handler quits the driver only when `driver` is already bound
(`if` over locals), and every failure path returns `(None, False, msg)`;
the success path requires the marker text to equal the sentinel
`"INICIO"`. -/
def login_ariba (o : LoginOracle) : LoginRun :=
  match o.setupDriver with
  | .exc m =>
      { driver := false, success := false, message := "Error: " ++ m,
        opened := false, quitCount := 0, raised := none }
  | .ok =>
      match o.preMarkerSteps with
      | .exc m =>
          { driver := false, success := false, message := "Error: " ++ m,
            opened := true, quitCount := 1, raised := none }
      | .ok =>
          match o.markerRead with
          | .exc m =>
              { driver := false, success := false, message := "Error: " ++ m,
                opened := true, quitCount := 1, raised := none }
          | .val v =>
              if v = "INICIO" then
                { driver := true, success := true,
                  message := "Ariba ha sido abierto exitosamente",
                  opened := true, quitCount := 0, raised := none }
              else
                { driver := false, success := false,
                  message := "Error: No se pudo verificar el login en Ariba",
                  opened := true, quitCount := 1, raised := none }

/-- Claim C7: `login_ariba` succeeds with a live handle exactly when every
step completed and the marker equals the sentinel `"INICIO"`; it never
raises to the caller; on success the driver is returned un-quit; on any
failure no driver is returned and every driver that was opened has been
quit exactly once (no leak). -/
theorem login_ariba_success_iff_marker (o : LoginOracle) :
    (login_ariba o).raised = none ∧
    ((login_ariba o).success = true ↔
      (o.setupDriver = .ok ∧ o.preMarkerSteps = .ok ∧ o.markerRead = .val "INICIO")) ∧
    ((login_ariba o).success = true →
      (login_ariba o).driver = true ∧ (login_ariba o).quitCount = 0) ∧
    ((login_ariba o).success = false →
      (login_ariba o).driver = false ∧
      ((login_ariba o).opened = true → (login_ariba o).quitCount = 1)) := by
  obtain ⟨s, p, mk⟩ := o
  cases s with
  | exc m => simp [login_ariba]
  | ok =>
    cases p with
    | exc m => simp [login_ariba]
    | ok =>
      cases mk with
      | exc m => simp [login_ariba]
      | val v =>
        by_cases hv : v = "INICIO" <;> simp [login_ariba, hv]

/-- Witness for C7 at two concrete oracles: a run whose marker reads
`"INICIO"` succeeds with an un-quit driver, and a run whose marker reads
`"ERROR"` fails with the opened driver quit exactly once. -/
theorem login_ariba_success_iff_marker_witness :
    ((login_ariba ⟨.ok, .ok, .val "INICIO"⟩).success = true ∧
     (login_ariba ⟨.ok, .ok, .val "INICIO"⟩).quitCount = 0) ∧
    ((login_ariba ⟨.ok, .ok, .val "ERROR"⟩).driver = false ∧
     (login_ariba ⟨.ok, .ok, .val "ERROR"⟩).quitCount = 1) :=
  let t1 := login_ariba_success_iff_marker ⟨.ok, .ok, .val "INICIO"⟩
  let t2 := login_ariba_success_iff_marker ⟨.ok, .ok, .val "ERROR"⟩
  have h1 : (login_ariba ⟨.ok, .ok, .val "INICIO"⟩).success = true :=
    t1.2.1.mpr ⟨rfl, rfl, rfl⟩
  have h2 : (login_ariba ⟨.ok, .ok, .val "ERROR"⟩).success = false := by
    by_contra hc
    have := (t2.2.1.mp (by revert hc; cases h : (login_ariba ⟨.ok, .ok, .val "ERROR"⟩).success <;> simp [h]))
    exact absurd this.2.2 (by decide)
  ⟨⟨h1, ((t1.2.2.1) h1).2⟩, ⟨(t2.2.2.2 h2).1, (t2.2.2.2 h2).2 (by decide)⟩⟩

/- ------------------------------------------------------------------ -/
/- Download workflow: `descarga_db`                                    -/
/- ------------------------------------------------------------------ -/

/-- The apostrophe character, used in two catalog strings. -/
def apo : String := String.mk [Char.ofNat 39]

/-- The `lista_csv` display labels of `descarga_db` (ariba_scraper.py
line 187), in source order. -/
def lista_csv : List String :=
  ["PR" ++ apo ++ "s", "CATALOG", "LEGAL", "IVA", "Categoría PR",
   "Categoria PR Lega", "Fecha_reque", "Pedidos Lata", "Sourcing DB",
   "DB Gerencia Compras", "Materiales", "PXC", "AQN_OTIF",
   "Reporte Proveedores v2", "especiales 2024 - Francisco", "SAP_MAT_SER",
   "Moneda y Pedido"]

/-- The `lista_rutas` target file names of `descarga_db` (ariba_scraper.py
line 193), in source order. -/
def lista_rutas : List String :=
  ["Backlog COMPRAS - LATAM - PR" ++ apo ++ "s.csv",
   "Backlog COMPRAS - LATAM - CATALOG.csv", "Backlog BPO PROCESO LEGAL.csv",
   "BACKPG PR - IVA.csv", "Categoría PR Compras.csv",
   "Categoria PR Legal.csv", "Fecha_requerida.csv", "Pedidos Latam.csv",
   "Sourcing DB.csv", "DB Gerencia Compras.csv", "Materiales LATAM.csv",
   "OTIF - Material - PXC.csv", "AQN_OTIF_OT.csv",
   "Reporte Proveedores v2.csv", "PR especiales 2024 - Francisco.csv",
   "SAP_MAT_SER.csv", "Moneda y Pedidos.csv"]

/-- `path_archivos = folder_path + "\\" + lista_rutas[i]` (ariba_scraper.py
line 200). -/
def path_archivos (folder : String) (i : Nat) : String :=
  folder ++ "\\" ++ lista_rutas.getD i ""

/-- `archivo_es_de_hoy` (ariba_scraper.py lines 175-184): the file system is
abstracted as a map from path to `none` (absent) or `some d` (present with
modification date `d`); the file is fresh when it is present and its date
equals `today`.  The source's internal exception handler also yields
`false`, which the `none` case covers. -/
def archivo_es_de_hoy (fs : String → Option Nat) (today : Nat)
    (p : String) : Bool :=
  match fs p with
  | none => false
  | some d => d == today

/-- Oracle outcome of one iteration of the per-entry `while validador:`
retry loop of `descarga_db` (ariba_scraper.py lines 216-283):
* `success` — the try block completes and the file is on disk: the source
  sets `validador = False` and increments `i`;
* `noFileAfterNav` — the try block completes but `os.path.exists` is false:
  `validador` stays `True` and the loop retries;
* `failNoButton` — an exception is raised and the recovery branch does not
  find the completed-button (inner `except: pass`): `validador` keeps its
  previous truthy value and the loop retries;
* `failThenButton s` — an exception is raised and the recovery branch reads
  the completed-button's `innerText` into `validador` (`validador = s`, a
  string: the loop now continues only while `s` is truthy, i.e. nonempty);
* `failRecoveryRaises m` — an exception is raised and the recovery branch
  itself raises (e.g. its final home-navigation `wait.until(...).click()`
  fails): the exception escapes to the outer handler of `descarga_db`. -/
inductive AttemptOutcome
  | success
  | noFileAfterNav
  | failNoButton
  | failThenButton (labelText : String)
  | failRecoveryRaises (msg : String)
deriving DecidableEq

/-- Events of a `descarga_db` run: the freshness check performed at the top
of each `for` iteration (recording the display label being processed and
the on-disk path it was checked against), a skip of a fresh entry, and one
navigation attempt (one iteration of the retry loop) for a label. -/
inductive DlEvent
  | freshnessCheck (label : String) (path : String)
  | skipped (label : String)
  | navAttempt (label : String)
deriving DecidableEq

/-- Exit status of the per-entry retry loop:
* `advanced` — a `success` iteration ended the loop and incremented `i`;
* `droppedEntry` — a `failThenButton ""` iteration left `validador` holding
  a falsy (empty) string, so `while validador:` exits WITHOUT incrementing
  `i` (the index-drift path);
* `aborted` — an exception escaped the recovery branch;
* `outOfFuel` — the oracle list ran out while the loop still wanted to
  retry (the source would keep looping; runs that end this way are marked
  failed and are excluded from success-only claims). -/
inductive WhileExit
  | advanced
  | droppedEntry
  | aborted (msg : String)
  | outOfFuel
deriving DecidableEq

/-- The per-entry `while validador:` retry loop of `descarga_db`, consuming
one oracle outcome per iteration; returns the exit status, the remaining
oracle, and the navigation events of this entry. -/
def runWhile (label : String) :
    List AttemptOutcome → WhileExit × List AttemptOutcome × List DlEvent
  | [] => (.outOfFuel, [], [])
  | .success :: rest => (.advanced, rest, [.navAttempt label])
  | .noFileAfterNav :: rest =>
      let r := runWhile label rest
      (r.1, r.2.1, .navAttempt label :: r.2.2)
  | .failNoButton :: rest =>
      let r := runWhile label rest
      (r.1, r.2.1, .navAttempt label :: r.2.2)
  | .failThenButton s :: rest =>
      if s = "" then (.droppedEntry, rest, [.navAttempt label])
      else
        let r := runWhile label rest
        (r.1, r.2.1, .navAttempt label :: r.2.2)
  | .failRecoveryRaises m :: rest => (.aborted m, rest, [.navAttempt label])

/-- The final success message of `descarga_db` (ariba_scraper.py
line 286). -/
def mensajeFinal (d o : Nat) : String :=
  "--> Proceso completado. Archivos descargados: " ++ toString d ++
    ", Archivos omitidos (ya existían de hoy): " ++ toString o

/-- Result of a `descarga_db` run: the returned `(success, message)` pair,
the two counters, the event trace, the final value of the manual index `i`,
and the out-of-fuel marker of the model. -/
structure RunResult where
  ok : Bool
  message : String
  descargados : Nat
  omitidos : Nat
  events : List DlEvent
  finalI : Nat
  fuelOut : Bool
deriving DecidableEq

/-- The `for nombre in lista_csv:` loop of `descarga_db` (ariba_scraper.py
lines 199-283) over an arbitrary remaining label list, carrying the manual
index `i` and the two counters.  A fresh entry is skipped (`archivos_omitidos
+= 1; i += 1; continue`); otherwise `archivos_descargados += 1` and the
retry loop runs: `advanced` increments `i`, `droppedEntry` does not (the
source's `validador` holds a falsy string), `aborted` ends the whole run via
the outer handler with `(False, "Error en descarga_db: ...")`. -/
def runEntries (folder : String) (fs : String → Option Nat) (today : Nat) :
    List String → Nat → Nat → Nat → List AttemptOutcome → RunResult
  | [], i, d, o, _oracle =>
      { ok := true, message := mensajeFinal d o, descargados := d,
        omitidos := o, events := [], finalI := i, fuelOut := false }
  | nombre :: rest, i, d, o, oracle =>
      let p := path_archivos folder i
      if archivo_es_de_hoy fs today p then
        let r := runEntries folder fs today rest (i+1) d (o+1) oracle
        { r with events := .freshnessCheck nombre p :: .skipped nombre :: r.events }
      else
        match runWhile nombre oracle with
        | (.advanced, rem, evs) =>
            let r := runEntries folder fs today rest (i+1) (d+1) o rem
            { r with events := .freshnessCheck nombre p :: evs ++ r.events }
        | (.droppedEntry, rem, evs) =>
            let r := runEntries folder fs today rest i (d+1) o rem
            { r with events := .freshnessCheck nombre p :: evs ++ r.events }
        | (.aborted m, _rem, evs) =>
            { ok := false, message := "Error en descarga_db: " ++ m,
              descargados := d+1, omitidos := o,
              events := .freshnessCheck nombre p :: evs, finalI := i,
              fuelOut := false }
        | (.outOfFuel, _rem, evs) =>
            { ok := false, message := "", descargados := d+1, omitidos := o,
              events := .freshnessCheck nombre p :: evs, finalI := i,
              fuelOut := true }

/-- Embedding of `descarga_db` (ariba_scraper.py lines 151-290): run the
`for` loop over the full catalog with `i = 0` and both counters at 0. -/
def descarga_db (folder : String) (fs : String → Option Nat) (today : Nat)
    (oracle : List AttemptOutcome) : RunResult :=
  runEntries folder fs today lista_csv 0 0 0 oracle

/-- Every iteration of the retry loop begins with a navigation attempt for
the entry's label: whatever the oracle outcome, the first event recorded by
`runWhile` on a nonempty oracle is `navAttempt label`. -/
theorem runWhile_first_event (label : String) (ox : AttemptOutcome)
    (orest : List AttemptOutcome) :
    ∃ tl, (runWhile label (ox :: orest)).2.2 = DlEvent.navAttempt label :: tl := by
  cases ox <;> simp [runWhile]
  split <;> simp

/-- Claim C5: at each entry of the download loop, if the target file exists
and its modification date equals today, the entry is skipped — the run
equals the run on the remaining entries with `omitidos` incremented and
`i` advanced, and this entry contributes exactly its freshness check and a
skip (no navigation attempt); if the file is absent or stale, a download is
attempted — the first two events of the run are this entry's freshness
check followed by a navigation attempt for its label. -/
theorem descarga_freshness_skip_or_download (folder : String)
    (fs : String → Option Nat) (today : Nat) (nombre : String)
    (rest : List String) (i d o : Nat) (oracle : List AttemptOutcome) :
    (archivo_es_de_hoy fs today (path_archivos folder i) = true →
      runEntries folder fs today (nombre :: rest) i d o oracle =
        { runEntries folder fs today rest (i+1) d (o+1) oracle with
            events := .freshnessCheck nombre (path_archivos folder i) ::
              .skipped nombre ::
              (runEntries folder fs today rest (i+1) d (o+1) oracle).events }) ∧
    (archivo_es_de_hoy fs today (path_archivos folder i) = false →
      ∀ ox orest, oracle = ox :: orest →
        (runEntries folder fs today (nombre :: rest) i d o oracle).events.take 2 =
          [.freshnessCheck nombre (path_archivos folder i),
           .navAttempt nombre]) := by
  constructor
  · intro hb
    simp [runEntries, hb]
  · intro hb ox orest hor
    subst hor
    obtain ⟨tl, htl⟩ := runWhile_first_event nombre ox orest
    rcases hw : runWhile nombre (ox :: orest) with ⟨res, rem, evs⟩
    rw [hw] at htl
    simp only at htl
    cases res <;> simp [runEntries, hb, hw, htl]

/-- Witness for C5 at concrete inputs: a file modified today is skipped and
counted omitted with no navigation; a file modified yesterday (date 6,
today 7) triggers a navigation attempt for that entry. -/
theorem descarga_freshness_skip_or_download_witness :
    (runEntries "D" (fun _ => some 7) 7 ["X"] 0 0 0 [] =
      { runEntries "D" (fun _ => some 7) 7 [] 1 0 1 [] with
          events := .freshnessCheck "X" (path_archivos "D" 0) ::
            .skipped "X" ::
            (runEntries "D" (fun _ => some 7) 7 [] 1 0 1 []).events }) ∧
    (runEntries "D" (fun _ => some 6) 7 ["X"] 0 0 0 [.success]).events.take 2 =
      [.freshnessCheck "X" (path_archivos "D" 0), .navAttempt "X"] :=
  ⟨(descarga_freshness_skip_or_download "D" (fun _ => some 7) 7 "X" [] 0 0 0 []).1
      (by decide),
   (descarga_freshness_skip_or_download "D" (fun _ => some 6) 7 "X" [] 0 0 0
      [.success]).2 (by decide) .success [] rfl⟩

/-- Claim C6 (code bug, evaluated at the failing input): when the first
entry's download attempt fails and the recovery branch reads an empty
`innerText` into `validador`, the `while validador:` loop exits without
incrementing `i`, so the next `for` iteration processes label
`lista_csv[1] = "CATALOG"` while checking the file of index 0
(`lista_rutas[0]`) — index drift between label and file name, contradicting
the claimed invariant.  The run still completes with a success result. -/
theorem descarga_index_drift_on_empty_button :
    (descarga_db "D" (fun _ => none) 0
        (.failThenButton "" :: List.replicate 16 .success)).ok = true ∧
    (descarga_db "D" (fun _ => none) 0
        (.failThenButton "" :: List.replicate 16 .success)).events[2]? =
      some (.freshnessCheck "CATALOG"
        ("D" ++ "\\" ++ ("Backlog COMPRAS - LATAM - PR" ++ apo ++ "s.csv"))) ∧
    lista_csv[1]? = some "CATALOG" ∧
    lista_rutas[0]? = some ("Backlog COMPRAS - LATAM - PR" ++ apo ++ "s.csv") ∧
    lista_rutas[1]? = some "Backlog COMPRAS - LATAM - CATALOG.csv" := by
  decide

/-- Claim C9: an exception escaping the per-entry recovery branch ends the
whole run as an unrecoverable failure: the result is the failed pair
`(False, "Error en descarga_db: ...")`, its event trace stops at the
aborting entry, and no subsequent catalog entry is processed. -/
theorem descarga_abort_stops_run (folder : String)
    (fs : String → Option Nat) (today : Nat) (nombre : String)
    (rest : List String) (i d o : Nat)
    (oracle rem : List AttemptOutcome) (m : String) (evs : List DlEvent)
    (hfresh : archivo_es_de_hoy fs today (path_archivos folder i) = false)
    (habort : runWhile nombre oracle = (.aborted m, rem, evs)) :
    runEntries folder fs today (nombre :: rest) i d o oracle =
      { ok := false, message := "Error en descarga_db: " ++ m,
        descargados := d+1, omitidos := o,
        events := .freshnessCheck nombre (path_archivos folder i) :: evs,
        finalI := i, fuelOut := false } := by
  simp [runEntries, hfresh, habort]

/-- Witness for C9 at a concrete input with a pending second entry: the run
fails and the trace never mentions entry `"B"`. -/
theorem descarga_abort_stops_run_witness :
    runEntries "D" (fun _ => none) 0 ["A", "B"] 0 0 0
        [.failRecoveryRaises "boom"] =
      { ok := false, message := "Error en descarga_db: " ++ "boom",
        descargados := 0+1, omitidos := 0,
        events := .freshnessCheck "A" (path_archivos "D" 0) ::
          [.navAttempt "A"],
        finalI := 0, fuelOut := false } :=
  descarga_abort_stops_run "D" (fun _ => none) 0 "A" ["B"] 0 0 0
    [.failRecoveryRaises "boom"] [] "boom" [.navAttempt "A"] (by decide) rfl

/-- Each `for` iteration of `descarga_db` increments exactly one of the two
counters, so a run that completes normally reports
`descargados + omitidos = initial sums + number of entries`. -/
theorem runEntries_counts (folder : String) (fs : String → Option Nat)
    (today : Nat) (labels : List String) :
    ∀ (i d o : Nat) (oracle : List AttemptOutcome),
      (runEntries folder fs today labels i d o oracle).ok = true →
      (runEntries folder fs today labels i d o oracle).descargados +
        (runEntries folder fs today labels i d o oracle).omitidos =
          d + o + labels.length := by
  induction labels with
  | nil =>
      intro i d o oracle _h
      simp [runEntries]
  | cons nombre rest ih =>
      intro i d o oracle h
      by_cases hb : archivo_es_de_hoy fs today (path_archivos folder i) = true
      · simp only [runEntries, hb, if_true] at h ⊢
        have := ih (i+1) d (o+1) oracle h
        simp only [List.length_cons]
        omega
      · rcases hw : runWhile nombre oracle with ⟨res, rem, evs⟩
        cases res with
        | advanced =>
            simp [runEntries, hb, hw] at h ⊢
            have := ih (i+1) (d+1) o rem h
            omega
        | droppedEntry =>
            simp [runEntries, hb, hw] at h ⊢
            have := ih i (d+1) o rem h
            omega
        | aborted m =>
            simp [runEntries, hb, hw] at h
        | outOfFuel =>
            simp [runEntries, hb, hw] at h

/-- Claim C10: whenever `descarga_db` returns a success result, the counts
satisfy `descargados + omitidos = 17`, the fixed length of the catalog —
each catalog entry is counted in exactly one of the two counters. -/
theorem descarga_success_counts_sum (folder : String)
    (fs : String → Option Nat) (today : Nat)
    (oracle : List AttemptOutcome)
    (h : (descarga_db folder fs today oracle).ok = true) :
    (descarga_db folder fs today oracle).descargados +
      (descarga_db folder fs today oracle).omitidos = 17 := by
  have h' : (runEntries folder fs today lista_csv 0 0 0 oracle).ok = true := h
  have hs := runEntries_counts folder fs today lista_csv 0 0 0 oracle h'
  have hlen : lista_csv.length = 17 := rfl
  rw [hlen] at hs
  simpa [descarga_db] using hs

/-- Witness for C10 at a concrete run in which every catalog file is fresh:
the run succeeds and the counters sum to 17. -/
theorem descarga_success_counts_sum_witness :
    (descarga_db "D" (fun _ => some 3) 3 []).descargados +
      (descarga_db "D" (fun _ => some 3) 3 []).omitidos = 17 :=
  descarga_success_counts_sum "D" (fun _ => some 3) 3 [] (by decide)
